import Mathlib

/-!
# Lunchly models: Customer and Reservation

A shallow embedding of `models/reservation.js` and `models/customer.js`.

* JavaScript values are the type `JSVal`; numbers are the integers.
* A property setter is a function from the object and the assigned value to
  the object after the call together with the error it raised, if any.
* `db.query` is a step on a `Store`; every call is appended to `Store.log`.
* What the schema decides (the value a column keeps for a bound value, or its
  rejection; the case mapping of ILIKE) is a parameter of the store.
-/

namespace Lunchly

/-! ## JavaScript values -/

/-- The JavaScript values that flow through the two models. A `date` carries
its time value in milliseconds. -/
inductive JSVal where
  | undefined
  | null
  | bool (b : Bool)
  | num (n : Int)
  | str (s : String)
  | date (t : Int)
deriving DecidableEq, Repr

namespace JSVal

/-- ToBoolean: what `if (v)` and `!v` test. Objects (dates) are truthy. -/
def truthy : JSVal → Bool
  | undefined => false
  | null => false
  | bool b => b
  | num n => n != 0
  | str s => s != ""
  | date _ => true

/-- The operator `v instanceof Date`. -/
def instanceofDate : JSVal → Bool
  | date _ => true
  | _ => false

/-- The value of a non-empty run of decimal digits. -/
def digitsToNat? (ds : List Char) : Option Nat :=
  if ds ≠ [] ∧ ds.all Char.isDigit = true then
    some (ds.foldl (fun n c => 10 * n + (c.toNat - 48)) 0)
  else none

/-- The white space and line terminator characters that StringToNumber
strips, by code point. -/
def isWhiteSpace (c : Char) : Bool :=
  c.toNat ∈ [0x09, 0x0A, 0x0B, 0x0C, 0x0D, 0x20, 0xA0, 0x1680, 0x2028, 0x2029, 0x202F,
    0x205F, 0x3000, 0xFEFF] || (0x2000 ≤ c.toNat && c.toNat ≤ 0x200A)

/-- The characters of a string without leading and trailing white space. -/
def trimChars (cs : List Char) : List Char :=
  ((cs.dropWhile isWhiteSpace).reverse.dropWhile isWhiteSpace).reverse

/-- StringToNumber on the integers: after trimming, the empty string is 0, a
decimal integer with an optional sign is that integer, anything else is NaN
(`none`). Strings that spell a fraction, an exponent or a radix literal denote
numbers that the embedding does not carry. -/
def stringToNumber (s : String) : Option Int :=
  match trimChars s.data with
  | [] => some 0
  | '+' :: ds => (digitsToNat? ds).map Int.ofNat
  | '-' :: ds => (digitsToNat? ds).map fun n => - Int.ofNat n
  | ds => (digitsToNat? ds).map Int.ofNat

/-- ToNumber; `none` is NaN. -/
def toNumber : JSVal → Option Int
  | undefined => none
  | null => some 0
  | bool b => some (if b then 1 else 0)
  | num n => some n
  | str s => stringToNumber s
  | date t => some t

/-- The comparison `v < k` against a number literal `k`: false when `v`
converts to NaN. -/
def ltNum (v : JSVal) (k : Int) : Bool :=
  match v.toNumber with
  | some n => decide (n < k)
  | none => false

end JSVal

/-! ## Errors -/

/-- The constructor an error object was built with. -/
inductive ErrorClass where
  | Error
  | TypeError
  | NotFoundError
  | BadRequestError
deriving DecidableEq, Repr

/-- A thrown error: its class, its message, and the `status` property when the
throwing code assigns one. -/
structure JSError where
  cls : ErrorClass
  message : String
  status : Option Nat
deriving DecidableEq, Repr

/-- Modelled from the spec: `expressError.js` is not among the sources. The
expression `new BadRequestError(msg)` builds a BadRequest error carrying the
message; the spec gives this kind no status. -/
def BadRequestError (msg : String) : JSError :=
  { cls := ErrorClass.BadRequestError, message := msg, status := none }

/-- Modelled from the spec: `expressError.js` is not among the sources. The
expression `new NotFoundError(msg)` builds a NotFound error carrying the
message; the kind implies the status 404. -/
def NotFoundError (msg : String) : JSError :=
  { cls := ErrorClass.NotFoundError, message := msg, status := some 404 }

/-! ## Reservation: fields and accessors -/

/-- A reservation object. `id` is `none` while it is `undefined`; the four
underscore fields are what the accessors read and write, `undefined` until
first assigned. -/
structure Reservation where
  id : Option Int
  _customerId : JSVal
  _startAt : JSVal
  _numGuests : JSVal
  _notes : JSVal
deriving DecidableEq, Repr

/-- The argument object of `new Reservation(...)`. -/
structure ReservationInit where
  id : Option Int
  customerId : JSVal
  numGuests : JSVal
  startAt : JSVal
  notes : JSVal
deriving DecidableEq, Repr

namespace Reservation

/-- The object before the constructor body runs. -/
def blank : Reservation :=
  { id := none, _customerId := JSVal.undefined, _startAt := JSVal.undefined,
    _numGuests := JSVal.undefined, _notes := JSVal.undefined }

/-- Getter `customerId`. -/
def customerId (self : Reservation) : JSVal := self._customerId

/-- Getter `startAt`. -/
def startAt (self : Reservation) : JSVal := self._startAt

/-- Getter `numGuests`. -/
def numGuests (self : Reservation) : JSVal := self._numGuests

/-- Getter `notes`. -/
def notes (self : Reservation) : JSVal := self._notes

/-- Setter `customerId`: `if (this._customerId) throw ...; this._customerId = id`. -/
def setCustomerId (self : Reservation) (id : JSVal) : Reservation × Option JSError :=
  if self._customerId.truthy then
    (self, some (BadRequestError "Reservations are not transferable."))
  else
    ({ self with _customerId := id }, none)

/-- Setter `startAt`: the test is `!date instanceof Date`, which JavaScript
reads as `(!date) instanceof Date`. -/
def setStartAt (self : Reservation) (date : JSVal) : Reservation × Option JSError :=
  if (JSVal.bool (!date.truthy)).instanceofDate then
    (self, some (BadRequestError "Date must be a Date object."))
  else
    ({ self with _startAt := date }, none)

/-- Setter `numGuests`: `if (val < 1) throw ...; this._numGuests = val`. -/
def setNumGuests (self : Reservation) (val : JSVal) : Reservation × Option JSError :=
  if val.ltNum 1 then
    (self, some (BadRequestError "Cannot make reservation for less than 1 guest."))
  else
    ({ self with _numGuests := val }, none)

/-- Setter `notes`: an `if (!val)` block that stores the empty string,
followed, with no `else`, by `this._notes = val`. -/
def setNotes (self : Reservation) (val : JSVal) : Reservation × Option JSError :=
  let self1 := if !val.truthy then { self with _notes := JSVal.str "" } else self
  ({ self1 with _notes := val }, none)

/-- Runs a setter inside the constructor: a raised error aborts construction. -/
def assign (set : Reservation → JSVal → Reservation × Option JSError)
    (val : JSVal) (self : Reservation) : Except JSError Reservation :=
  match set self val with
  | (_, some e) => Except.error e
  | (self1, none) => Except.ok self1

/-- The constructor: `this.id = id`, then the four setters in source order. -/
def new (o : ReservationInit) : Except JSError Reservation :=
  (assign setCustomerId o.customerId { blank with id := o.id }).bind fun r1 =>
  (assign setNumGuests o.numGuests r1).bind fun r2 =>
  (assign setStartAt o.startAt r2).bind fun r3 =>
  assign setNotes o.notes r3

end Reservation

/-! ## The store -/

/-- A text-valued property of a customer object: `undefined` (omitted or
never assigned), `null`, or a string. -/
inductive JSText where
  | undefined
  | null
  | str (s : String)
deriving DecidableEq, Repr

namespace JSText

/-- ToString, as the operator `+` applies it next to a string. -/
def toString : JSText → String
  | undefined => "undefined"
  | null => "null"
  | str s => s

/-- A bound value as the driver sends it: `undefined` and `null` go as NULL
(`none`), a string as itself. -/
def bound : JSText → Option String
  | undefined => none
  | null => none
  | str s => some s

/-- The JavaScript value of a text column of a returned row: NULL is `null`. -/
def ofColumn : Option String → JSText
  | none => null
  | some s => str s

end JSText

/-- A row of `customers`, under the aliases of the SELECT lists; `none` is
NULL. -/
structure CustomerRow where
  id : Int
  firstName : Option String
  lastName : Option String
  phone : Option String
  notes : Option String
deriving DecidableEq, Repr

/-- A row of `reservations`, under the aliases of the SELECT lists. -/
structure ReservationRow where
  id : Int
  customerId : JSVal
  numGuests : JSVal
  startAt : JSVal
  notes : JSVal
deriving DecidableEq, Repr

/-- The calls to `db.query` that the modelled methods make, each with its
bound values in source order. -/
inductive Query where
  | selectCustomersILike (searchString : String)
  | selectCustomerById (id : Int)
  | insertCustomer (firstName lastName phone notes : JSText)
  | updateCustomer (firstName lastName phone notes : JSText) (id : Int)
  | selectReservationById (id : Int)
  | insertReservation (customerId numGuests startAt notes : JSVal)
  | updateReservation (customerId numGuests startAt notes : JSVal) (id : Int)
deriving DecidableEq, Repr

/-- Modelled from the spec: the schema is not among the sources, so what it
decides is a parameter of the store. For each column: the value the store
keeps for a value sent to it, or the error it raises when it rejects the value
(wrong type, violated constraint). Further the error of a duplicate key, and
the case mapping under which ILIKE compares. -/
structure Schema where
  firstName : Option String → Except JSError (Option String)
  lastName : Option String → Except JSError (Option String)
  phone : Option String → Except JSError (Option String)
  customerNotes : Option String → Except JSError (Option String)
  customerId : JSVal → Except JSError JSVal
  numGuests : JSVal → Except JSError JSVal
  startAt : JSVal → Except JSError JSVal
  reservationNotes : JSVal → Except JSError JSVal
  duplicateKey : JSError
  lower : Char → Char

/-- Modelled from the spec: `db.js` is not among the sources. The store holds
its schema, the two tables in insertion order, the next value of each id
sequence, and the calls received so far. -/
structure Store where
  schema : Schema
  customers : List CustomerRow
  reservations : List ReservationRow
  nextCustomerId : Int
  nextReservationId : Int
  log : List Query

/-! ### LIKE and ILIKE -/

/-- One element of a LIKE pattern. `dangling` is an escape character with
nothing after it, which no text matches. -/
inductive LikeTok where
  | anySeq
  | anyOne
  | lit (c : Char)
  | dangling
deriving DecidableEq, Repr

/-- The escape character of LIKE, the backslash. -/
def likeEscape : Char := Char.ofNat 92

/-- An unescaped pattern character: `%` is any sequence, `_` any one
character, everything else itself. -/
def likeTok (c : Char) : LikeTok :=
  if c = '%' then LikeTok.anySeq
  else if c = '_' then LikeTok.anyOne
  else LikeTok.lit c

/-- Reads a LIKE pattern: the escape character makes the next character
literal. -/
def likeTokens : List Char → List LikeTok
  | [] => []
  | [a] => if a = likeEscape then [LikeTok.dangling] else [likeTok a]
  | a :: b :: p =>
    if a = likeEscape then LikeTok.lit b :: likeTokens p
    else likeTok a :: likeTokens (b :: p)

/-- Whether `f` accepts some suffix of the text. -/
def anySuffix (f : List Char → Bool) : List Char → Bool
  | [] => f []
  | c :: t => f (c :: t) || anySuffix f t

/-- Whether the whole text matches the pattern elements. -/
def matchToks : List LikeTok → List Char → Bool
  | [], t => t.isEmpty
  | LikeTok.anySeq :: p, t => anySuffix (matchToks p) t
  | LikeTok.anyOne :: _, [] => false
  | LikeTok.anyOne :: p, _ :: t => matchToks p t
  | LikeTok.lit _ :: _, [] => false
  | LikeTok.lit a :: p, c :: t => a == c && matchToks p t
  | LikeTok.dangling :: _, _ => false

/-- Modelled from the spec: `text LIKE pattern` as the store evaluates it. -/
def like (text pattern : List Char) : Bool :=
  matchToks (likeTokens pattern) text

/-- Modelled from the spec: `text ILIKE pattern` as the store evaluates it,
LIKE after mapping both sides through the case mapping of the schema. -/
def ilike (lower : Char → Char) (text pattern : String) : Bool :=
  like (text.data.map lower) (pattern.data.map lower)

/-- The expression CONCAT of first_name, a space and last_name in the search
query; CONCAT leaves out a NULL argument. -/
def CustomerRow.concatName (r : CustomerRow) : String :=
  r.firstName.getD "" ++ " " ++ r.lastName.getD ""

/-- Ascending order of a text column: by code point, NULL after every text. -/
def textLt : Option String → Option String → Bool
  | some a, some b => decide (a.data < b.data)
  | some _, none => true
  | none, _ => false

/-- The order `ORDER BY last_name, first_name`. -/
def CustomerRow.orderLE (a b : CustomerRow) : Prop :=
  textLt a.lastName b.lastName = true ∨
    (a.lastName = b.lastName ∧ textLt b.firstName a.firstName = false)

instance CustomerRow.decidableOrderLE : DecidableRel CustomerRow.orderLE :=
  fun a b => inferInstanceAs (Decidable
    (textLt a.lastName b.lastName = true ∨
      (a.lastName = b.lastName ∧ textLt b.firstName a.firstName = false)))

/-- A bound value as the driver sends it: `undefined` goes as NULL. -/
def Store.bound (v : JSVal) : JSVal :=
  match v with
  | JSVal.undefined => JSVal.null
  | w => w

namespace Schema

/-- The row the store keeps for the four bound values of a customer, or the
error of the first column that rejects its value. -/
def customerRow (sc : Schema) (id : Int) (firstName lastName phone notes : JSText) :
    Except JSError CustomerRow :=
  (sc.firstName firstName.bound).bind fun fn =>
  (sc.lastName lastName.bound).bind fun ln =>
  (sc.phone phone.bound).bind fun ph =>
  (sc.customerNotes notes.bound).bind fun nt =>
  Except.ok { id := id, firstName := fn, lastName := ln, phone := ph, notes := nt }

/-- The row the store keeps for the four bound values of a reservation, or
the error of the first column that rejects its value. -/
def reservationRow (sc : Schema) (id : Int) (customerId numGuests startAt notes : JSVal) :
    Except JSError ReservationRow :=
  (sc.customerId (Store.bound customerId)).bind fun c =>
  (sc.numGuests (Store.bound numGuests)).bind fun n =>
  (sc.startAt (Store.bound startAt)).bind fun s =>
  (sc.reservationNotes (Store.bound notes)).bind fun t =>
  Except.ok { id := id, customerId := c, numGuests := n, startAt := s, notes := t }

end Schema

namespace Store

/-- Appends a call to the log. -/
def record (st : Store) (q : Query) : Store :=
  { st with log := st.log ++ [q] }

/-- The search SELECT of `Customer.searchCustomers`: the rows whose
concatenated name is ILIKE the bound value, ordered by last then first name. -/
def selectCustomersILike (st : Store) (searchString : String) :
    Store × List CustomerRow :=
  (st.record (Query.selectCustomersILike searchString),
    (st.customers.filter fun r =>
        ilike st.schema.lower r.concatName searchString).insertionSort
      CustomerRow.orderLE)

/-- The SELECT of `Customer.get`: the rows `WHERE id = $1`. -/
def selectCustomerById (st : Store) (id : Int) : Store × List CustomerRow :=
  (st.record (Query.selectCustomerById id),
    st.customers.filter fun r => r.id == id)

/-- The INSERT of `Customer.save`. The call is logged. When a column rejects
its value the call fails and nothing else changes. Otherwise the next id of
the sequence is taken: when a row already has that id the call fails with the
duplicate-key error, else the row is added and the id is returned as the
single row of `RETURNING id`. -/
def insertCustomer (st : Store) (firstName lastName phone notes : JSText) :
    Store × Except JSError (List Int) :=
  let st1 := st.record (Query.insertCustomer firstName lastName phone notes)
  match st.schema.customerRow st.nextCustomerId firstName lastName phone notes with
  | Except.error e => (st1, Except.error e)
  | Except.ok row =>
    if st.customers.any (fun r => r.id == st.nextCustomerId) then
      ({ st1 with nextCustomerId := st.nextCustomerId + 1 },
        Except.error st.schema.duplicateKey)
    else
      ({ st1 with
          customers := st.customers ++ [row]
          nextCustomerId := st.nextCustomerId + 1 },
        Except.ok [st.nextCustomerId])

/-- The UPDATE of `Customer.save`. The call is logged. When a column rejects
its value the call fails and nothing else changes; otherwise the four columns
of the rows `WHERE id = $5` are rewritten. -/
def updateCustomer (st : Store) (firstName lastName phone notes : JSText) (id : Int) :
    Store × Except JSError Unit :=
  let st1 := st.record (Query.updateCustomer firstName lastName phone notes id)
  match st.schema.customerRow id firstName lastName phone notes with
  | Except.error e => (st1, Except.error e)
  | Except.ok row =>
    ({ st1 with customers := st.customers.map fun r => if r.id == id then row else r },
      Except.ok ())

/-- The SELECT of `Reservation.get`: the rows `WHERE id = $1`. -/
def selectReservationById (st : Store) (id : Int) : Store × List ReservationRow :=
  (st.record (Query.selectReservationById id),
    st.reservations.filter fun r => r.id == id)

/-- The INSERT of `Reservation.save`. The call is logged. When a column
rejects its value the call fails and nothing else changes. Otherwise the next
id of the sequence is taken: when a row already has that id the call fails
with the duplicate-key error, else the row is added and the id is returned as
the single row of `RETURNING id`. -/
def insertReservation (st : Store) (customerId numGuests startAt notes : JSVal) :
    Store × Except JSError (List Int) :=
  let st1 := st.record (Query.insertReservation customerId numGuests startAt notes)
  match st.schema.reservationRow st.nextReservationId customerId numGuests startAt
      notes with
  | Except.error e => (st1, Except.error e)
  | Except.ok row =>
    if st.reservations.any (fun r => r.id == st.nextReservationId) then
      ({ st1 with nextReservationId := st.nextReservationId + 1 },
        Except.error st.schema.duplicateKey)
    else
      ({ st1 with
          reservations := st.reservations ++ [row]
          nextReservationId := st.nextReservationId + 1 },
        Except.ok [st.nextReservationId])

/-- The UPDATE of `Reservation.save`. The call is logged. When a column
rejects its value the call fails and nothing else changes; otherwise the four
columns of the rows `WHERE id = $5` are rewritten. -/
def updateReservation (st : Store) (customerId numGuests startAt notes : JSVal)
    (id : Int) : Store × Except JSError Unit :=
  let st1 := st.record (Query.updateReservation customerId numGuests startAt notes id)
  match st.schema.reservationRow id customerId numGuests startAt notes with
  | Except.error e => (st1, Except.error e)
  | Except.ok row =>
    ({ st1 with
        reservations := st.reservations.map fun r => if r.id == id then row else r },
      Except.ok ())

end Store

/-- The error of reading `.id` of `rows[0]` when `rows` is empty. -/
def rowsEmptyTypeError : JSError :=
  { cls := ErrorClass.TypeError,
    message := "Cannot read properties of undefined (reading \x27id\x27)",
    status := none }

/-! ## Reservation: store operations -/

namespace Reservation

/-- The constructor argument made of a store row. -/
def ofRow (row : ReservationRow) : ReservationInit :=
  { id := some row.id, customerId := row.customerId, numGuests := row.numGuests,
    startAt := row.startAt, notes := row.notes }

/-- The static method `Reservation.get(id)`. -/
def get (db : Store) (id : Int) : Store × Except JSError Reservation :=
  let (db1, rows) := db.selectReservationById id
  match rows.head? with
  | none => (db1, Except.error (NotFoundError ("No such reservation: " ++ toString id)))
  | some reservation => (db1, Reservation.new (ofRow reservation))

/-- The method `save()`: INSERT when `this.id === undefined`, else UPDATE. An
error of the store call leaves the method before `this.id` is assigned. -/
def save (self : Reservation) (db : Store) : Store × Reservation × Option JSError :=
  match self.id with
  | none =>
    match db.insertReservation self.customerId self.numGuests self.startAt self.notes with
    | (db1, Except.error e) => (db1, self, some e)
    | (db1, Except.ok rows) =>
      match rows.head? with
      | none => (db1, self, some rowsEmptyTypeError)
      | some newId => (db1, { self with id := some newId }, none)
  | some id =>
    match db.updateReservation self.customerId self.numGuests self.startAt self.notes
        id with
    | (db1, Except.error e) => (db1, self, some e)
    | (db1, Except.ok _) => (db1, self, none)

end Reservation

/-! ## Customer -/

/-- A customer object; `id` is `none` while it is `undefined`. -/
structure Customer where
  id : Option Int
  firstName : JSText
  lastName : JSText
  fullName : String
  phone : JSText
  notes : JSText
deriving DecidableEq, Repr

/-- The argument object of `new Customer(...)`; an omitted property is
`undefined`. -/
structure CustomerInit where
  id : Option Int
  firstName : JSText
  lastName : JSText
  phone : JSText
  notes : JSText
deriving DecidableEq, Repr

/-- What `Customer.searchCustomers` returns: the object literal `{}` or an
array of customers. -/
inductive SearchResult where
  | emptyObject
  | array (customers : List Customer)
deriving DecidableEq, Repr

/-- The customers a search result holds. -/
def SearchResult.customers : SearchResult → List Customer
  | SearchResult.emptyObject => []
  | SearchResult.array cs => cs

namespace Customer

/-- The method `getFullName()`: `this.firstName + ' ' + this.lastName`. -/
def getFullName (self : Customer) : String :=
  self.firstName.toString ++ " " ++ self.lastName.toString

/-- The constructor; `fullName` is computed here, once, after the two names
are stored. -/
def new (o : CustomerInit) : Customer :=
  let self : Customer :=
    { id := o.id, firstName := o.firstName, lastName := o.lastName, fullName := "",
      phone := JSText.undefined, notes := JSText.undefined }
  let self := { self with fullName := self.getFullName }
  { self with phone := o.phone, notes := o.notes }

/-- The constructor argument made of a store row. -/
def ofRow (row : CustomerRow) : CustomerInit :=
  { id := some row.id, firstName := JSText.ofColumn row.firstName,
    lastName := JSText.ofColumn row.lastName, phone := JSText.ofColumn row.phone,
    notes := JSText.ofColumn row.notes }

/-- The bound value of the search: `str ? %str% : %`; `none` is an omitted
argument. -/
def searchString (str : Option String) : String :=
  match str with
  | some s => if s != "" then "%" ++ s ++ "%" else "%"
  | none => "%"

/-- The static method `Customer.searchCustomers(str)`. -/
def searchCustomers (db : Store) (str : Option String) :
    Store × Except JSError SearchResult :=
  let (db1, rows) := db.selectCustomersILike (searchString str)
  match rows.head? with
  | none => (db1, Except.ok SearchResult.emptyObject)
  | some _ => (db1, Except.ok (SearchResult.array (rows.map fun c => Customer.new (ofRow c))))

/-- The static method `Customer.get(id)`. -/
def get (db : Store) (id : Int) : Store × Except JSError Customer :=
  let (db1, rows) := db.selectCustomerById id
  match rows.head? with
  | none =>
    (db1, Except.error
      { cls := ErrorClass.Error, message := "No such customer: " ++ toString id,
        status := some 404 })
  | some customer => (db1, Except.ok (Customer.new (ofRow customer)))

/-- The method `save()`: INSERT when `this.id === undefined`, else UPDATE. An
error of the store call leaves the method before `this.id` is assigned. -/
def save (self : Customer) (db : Store) : Store × Customer × Option JSError :=
  match self.id with
  | none =>
    match db.insertCustomer self.firstName self.lastName self.phone self.notes with
    | (db1, Except.error e) => (db1, self, some e)
    | (db1, Except.ok rows) =>
      match rows.head? with
      | none => (db1, self, some rowsEmptyTypeError)
      | some newId => (db1, { self with id := some newId }, none)
  | some id =>
    match db.updateCustomer self.firstName self.lastName self.phone self.notes id with
    | (db1, Except.error e) => (db1, self, some e)
    | (db1, Except.ok _) => (db1, self, none)

end Customer

/-! ## A schema with the column types of the data model -/

/-- The error of a value the column cannot keep. -/
def invalidInput : JSError :=
  { cls := ErrorClass.Error, message := "invalid input syntax", status := none }

/-- The error of NULL in a column that must hold a value. -/
def notNullViolation : JSError :=
  { cls := ErrorClass.Error, message := "null value violates not-null constraint",
    status := none }

/-- A text column that may hold NULL. -/
def nullableText (v : Option String) : Except JSError (Option String) :=
  Except.ok v

/-- A text column that must hold a value. -/
def requiredText (v : Option String) : Except JSError (Option String) :=
  match v with
  | none => Except.error notNullViolation
  | some s => Except.ok (some s)

/-- The integer a string spells as input of an integer column: white space
around an optionally signed run of digits. -/
def integerInput (s : String) : Option Int :=
  match JSVal.trimChars s.data with
  | '+' :: ds => (JSVal.digitsToNat? ds).map Int.ofNat
  | '-' :: ds => (JSVal.digitsToNat? ds).map fun n => - Int.ofNat n
  | ds => (JSVal.digitsToNat? ds).map Int.ofNat

/-- An integer column: keeps a number, and the number a string spells; rejects
NULL and every other value. -/
def integerColumn (v : JSVal) : Except JSError JSVal :=
  match v with
  | JSVal.num n => Except.ok (JSVal.num n)
  | JSVal.str s =>
    match integerInput s with
    | some n => Except.ok (JSVal.num n)
    | none => Except.error invalidInput
  | JSVal.null => Except.error notNullViolation
  | JSVal.undefined => Except.error notNullViolation
  | _ => Except.error invalidInput

/-- A date/time column of this example: keeps a date, rejects NULL and every
other value. -/
def timestampColumn (v : JSVal) : Except JSError JSVal :=
  match v with
  | JSVal.date t => Except.ok (JSVal.date t)
  | JSVal.null => Except.error notNullViolation
  | JSVal.undefined => Except.error notNullViolation
  | _ => Except.error invalidInput

/-- A text column of this example: keeps a string, rejects NULL and every
other value. -/
def textColumn (v : JSVal) : Except JSError JSVal :=
  match v with
  | JSVal.str s => Except.ok (JSVal.str s)
  | JSVal.null => Except.error notNullViolation
  | JSVal.undefined => Except.error notNullViolation
  | _ => Except.error invalidInput

/-- An example schema with the column types the data model names: text names,
nullable text phone and notes of a customer; integer customerId and numGuests,
date/time startAt and text notes of a reservation; ASCII case mapping. The
theorems below that take a store hold for every schema; this one serves the
concrete evaluations. -/
def typedSchema : Schema :=
  { firstName := requiredText, lastName := requiredText, phone := nullableText,
    customerNotes := nullableText, customerId := integerColumn,
    numGuests := integerColumn, startAt := timestampColumn,
    reservationNotes := textColumn,
    duplicateKey :=
      { cls := ErrorClass.Error,
        message := "duplicate key value violates unique constraint", status := none },
    lower := Char.toLower }

/-! ## Concrete objects and store states used below -/

/-- A reservation request for customer id 0. -/
def zeroCustomerInit : ReservationInit :=
  { id := none, customerId := JSVal.num 0, numGuests := JSVal.num 2,
    startAt := JSVal.date 0, notes := JSVal.str "window" }

/-- A reservation request whose notes are `null`. -/
def nullNotesInit : ReservationInit :=
  { id := none, customerId := JSVal.num 3, numGuests := JSVal.num 2,
    startAt := JSVal.date 0, notes := JSVal.null }

/-- A reservation request whose start is the string `"tomorrow"`. -/
def stringStartInit : ReservationInit :=
  { id := none, customerId := JSVal.num 3, numGuests := JSVal.num 2,
    startAt := JSVal.str "tomorrow", notes := JSVal.str "" }

/-- A reservation request whose customerId is the string `"abc"`. -/
def wordCustomerInit : ReservationInit :=
  { id := none, customerId := JSVal.str "abc", numGuests := JSVal.num 2,
    startAt := JSVal.date 0, notes := JSVal.str "" }

/-- A store with no rows, both id sequences at 1. -/
def emptyStore : Store :=
  { schema := typedSchema, customers := [], reservations := [], nextCustomerId := 1,
    nextReservationId := 1, log := [] }

/-- A store whose only reservation row has zero guests. -/
def zeroGuestsStore : Store :=
  { schema := typedSchema
    customers := []
    reservations :=
      [{ id := 1, customerId := JSVal.num 4, numGuests := JSVal.num 0,
         startAt := JSVal.date 0, notes := JSVal.str "" }]
    nextCustomerId := 1, nextReservationId := 2, log := [] }

/-- A store with the single customer Al Bo. -/
def oneCustomerStore : Store :=
  { schema := typedSchema
    customers :=
      [{ id := 1, firstName := some "Al", lastName := some "Bo", phone := none,
         notes := none }]
    reservations := [], nextCustomerId := 2, nextReservationId := 1, log := [] }

/-- A store whose reservation sequence is behind its table: a row has id 1
and the next id of the sequence is 1. -/
def staleSequenceStore : Store :=
  { schema := typedSchema
    customers := []
    reservations :=
      [{ id := 1, customerId := JSVal.num 4, numGuests := JSVal.num 2,
         startAt := JSVal.date 0, notes := JSVal.str "" }]
    nextCustomerId := 1, nextReservationId := 1, log := [] }

/-- A customer built as Ann Lee whose first name is then changed to Bea. -/
def renamedCustomer : Customer :=
  { Customer.new
      { id := none, firstName := JSText.str "Ann", lastName := JSText.str "Lee",
        phone := JSText.str "555", notes := JSText.null } with
    firstName := JSText.str "Bea" }

/-- A customer built as Di Roe with phone and notes omitted. -/
def noPhoneCustomer : Customer :=
  Customer.new
    { id := none, firstName := JSText.str "Di", lastName := JSText.str "Roe",
      phone := JSText.undefined, notes := JSText.undefined }

/-- A customer built as Cy Ode with every field a string or null. -/
def plainCustomer : Customer :=
  Customer.new
    { id := none, firstName := JSText.str "Cy", lastName := JSText.str "Ode",
      phone := JSText.null, notes := JSText.str "vip" }

/-- A reservation that has not been saved; its numGuests is the string "2". -/
def unsavedReservation : Reservation :=
  { id := none, _customerId := JSVal.num 3, _startAt := JSVal.date 0,
    _numGuests := JSVal.str "2", _notes := JSVal.str "" }

/-! ## Reservation setters -/

/-- C1 (evaluation at the failing input). A reservation constructed with
customerId 0 reads back 0, and assigning customerId = 5 afterwards raises
nothing and replaces the 0 by 5. -/
theorem customerId_zero_is_reassigned :
    ∃ r, Reservation.new zeroCustomerInit = Except.ok r ∧
      r.customerId = JSVal.num 0 ∧
      (r.setCustomerId (JSVal.num 5)).2 = none ∧
      (r.setCustomerId (JSVal.num 5)).1.customerId = JSVal.num 5 :=
  ⟨_, rfl, rfl, rfl, rfl⟩

/-- C2. Assigning numGuests = val for an integer val raises BadRequestError
exactly when val < 1; a raising call leaves the object as it was, a
succeeding call makes numGuests read back val; 0 and negative values are
rejected and 1 is accepted. -/
theorem numGuests_setter_rejects_iff_lt_one (r : Reservation) (val : Int) :
    ((∃ e, (r.setNumGuests (JSVal.num val)).2 = some e) ↔ val < 1) ∧
    ((r.setNumGuests (JSVal.num val)).2 =
        some (BadRequestError "Cannot make reservation for less than 1 guest.") ↔
      val < 1) ∧
    ((r.setNumGuests (JSVal.num val)).2 = none ↔ 1 ≤ val) ∧
    (r.setNumGuests (JSVal.num val)).1 =
      (if val < 1 then r else { r with _numGuests := JSVal.num val }) ∧
    (r.setNumGuests (JSVal.num val)).1.numGuests =
      (if val < 1 then r.numGuests else JSVal.num val) ∧
    (r.setNumGuests (JSVal.num 0)).2 ≠ none ∧
    (r.setNumGuests (JSVal.num (-(val.natAbs + 1 : Nat)))).2 ≠ none ∧
    (r.setNumGuests (JSVal.num 1)).2 = none := by
  have hneg : (-((val.natAbs + 1 : Nat) : Int)) < 1 := by omega
  refine ⟨?_, ?_, ?_, ?_, ?_, ?_, ?_, ?_⟩
  · by_cases h : val < 1 <;>
      simp [Reservation.setNumGuests, JSVal.ltNum, JSVal.toNumber, h]
  · by_cases h : val < 1 <;>
      simp [Reservation.setNumGuests, JSVal.ltNum, JSVal.toNumber, h]
  · by_cases h : val < 1
    · simp [Reservation.setNumGuests, JSVal.ltNum, JSVal.toNumber, h]
    · simp [Reservation.setNumGuests, JSVal.ltNum, JSVal.toNumber, h]
      omega
  · by_cases h : val < 1 <;>
      simp [Reservation.setNumGuests, JSVal.ltNum, JSVal.toNumber, h]
  · by_cases h : val < 1 <;>
      simp [Reservation.setNumGuests, JSVal.ltNum, JSVal.toNumber, h,
        Reservation.numGuests]
  · simp [Reservation.setNumGuests, JSVal.ltNum, JSVal.toNumber]
  · simp only [Reservation.setNumGuests, JSVal.ltNum, JSVal.toNumber, hneg]
    simp
  · simp [Reservation.setNumGuests, JSVal.ltNum, JSVal.toNumber]

/-- C3 (evaluation at the failing input). Assigning notes = null reads back
null, by the setter on a fresh object and by the constructor alike, and
assigning undefined reads back undefined: the empty string stored for a falsy
value is overwritten by the value itself. -/
theorem notes_null_reads_back_null :
    (Reservation.blank.setNotes JSVal.null).1.notes = JSVal.null ∧
    (Reservation.blank.setNotes JSVal.undefined).1.notes = JSVal.undefined ∧
    (∃ r, Reservation.new nullNotesInit = Except.ok r ∧ r.notes = JSVal.null) ∧
    JSVal.null ≠ JSVal.str "" :=
  ⟨rfl, rfl, ⟨_, rfl, rfl⟩, by decide⟩

/-- C4 (evaluation at the failing input). Assigning the string "tomorrow" to
startAt raises nothing and stores the string, by the setter on a fresh object
and by the constructor alike. -/
theorem startAt_accepts_a_string :
    (Reservation.blank.setStartAt (JSVal.str "tomorrow")).2 = none ∧
    (Reservation.blank.setStartAt (JSVal.str "tomorrow")).1.startAt =
      JSVal.str "tomorrow" ∧
    (JSVal.str "tomorrow").instanceofDate = false ∧
    (∃ r, Reservation.new stringStartInit = Except.ok r ∧
      r.startAt = JSVal.str "tomorrow") :=
  ⟨rfl, rfl, rfl, ⟨_, rfl, rfl⟩⟩

/-! ## Reservation.save -/

/-- A row the schema builds carries the given id and, column by column, the
value the schema keeps for the bound value. -/
theorem reservationRow_ok (sc : Schema) (id : Int) (a b c d : JSVal)
    (row : ReservationRow) (h : sc.reservationRow id a b c d = Except.ok row) :
    row.id = id ∧ sc.customerId (Store.bound a) = Except.ok row.customerId ∧
      sc.numGuests (Store.bound b) = Except.ok row.numGuests ∧
      sc.startAt (Store.bound c) = Except.ok row.startAt ∧
      sc.reservationNotes (Store.bound d) = Except.ok row.notes := by
  unfold Schema.reservationRow at h
  cases h1 : sc.customerId (Store.bound a) <;>
    cases h2 : sc.numGuests (Store.bound b) <;>
    cases h3 : sc.startAt (Store.bound c) <;>
    cases h4 : sc.reservationNotes (Store.bound d) <;>
    simp [h1, h2, h3, h4, Except.bind] at h
  subst h
  simp

/-- C5 (counterexample). A reservation built with customerId "abc" has an
undefined id; on the empty store, whose customer_id column is an integer,
save() sends its INSERT, the store rejects it, the error leaves save(), id
stays undefined and no row is added; a second save() sends an INSERT again,
not an UPDATE. Likewise an unsaved reservation with valid values on a store
whose sequence is behind its table: the INSERT fails on the duplicate key, id
stays undefined and the table keeps its one row. -/
theorem save_rejected_by_store_sets_no_id :
    (∃ r, Reservation.new wordCustomerInit = Except.ok r ∧ r.id = none ∧
      (r.save emptyStore).2.2 = some invalidInput ∧
      (r.save emptyStore).2.1.id = none ∧
      (r.save emptyStore).1.reservations = [] ∧
      (r.save emptyStore).1.log =
        [Query.insertReservation (JSVal.str "abc") (JSVal.num 2) (JSVal.date 0)
          (JSVal.str "")] ∧
      ((r.save emptyStore).2.1.save (r.save emptyStore).1).1.log =
        [Query.insertReservation (JSVal.str "abc") (JSVal.num 2) (JSVal.date 0)
          (JSVal.str ""),
         Query.insertReservation (JSVal.str "abc") (JSVal.num 2) (JSVal.date 0)
          (JSVal.str "")]) ∧
    (unsavedReservation.id = none ∧
      (unsavedReservation.save staleSequenceStore).2.2 =
        some staleSequenceStore.schema.duplicateKey ∧
      (unsavedReservation.save staleSequenceStore).2.1.id = none ∧
      (unsavedReservation.save staleSequenceStore).1.reservations =
        staleSequenceStore.reservations) :=
  ⟨⟨_, rfl, rfl, rfl, rfl, rfl, rfl, rfl⟩, rfl, rfl, rfl, rfl⟩

/-- C5 (amended). For a reservation whose id is undefined and every store
state, save() sends exactly one INSERT carrying (customerId, numGuests,
startAt, notes) and leaves the store as that INSERT leaves it. When the store
rejects the INSERT, its error leaves save(), the object is unchanged and no
row is added. When the store accepts it, one row is added: it has the next id
of the sequence and, column by column, the values the store keeps for the four
bound values; id is set to that id and nothing is raised. save() on the
resulting object then sends exactly one UPDATE of the same four values keyed
by that id, leaves the store as that UPDATE leaves it, raises nothing, and the
table is as it was after the INSERT: over the two calls the number of
reservation rows grows by one. -/
theorem save_inserts_once_then_updates (r : Reservation) (db : Store)
    (hid : r.id = none) :
    (r.save db).1 =
      (db.insertReservation r.customerId r.numGuests r.startAt r.notes).1 ∧
    (r.save db).1.log =
      db.log ++ [Query.insertReservation r.customerId r.numGuests r.startAt r.notes] ∧
    (match (db.insertReservation r.customerId r.numGuests r.startAt r.notes).2 with
     | Except.error e =>
       (r.save db).2 = (r, some e) ∧ (r.save db).1.reservations = db.reservations
     | Except.ok _ =>
       ∃ row : ReservationRow,
         row.id = db.nextReservationId ∧
         db.schema.customerId (Store.bound r.customerId) = Except.ok row.customerId ∧
         db.schema.numGuests (Store.bound r.numGuests) = Except.ok row.numGuests ∧
         db.schema.startAt (Store.bound r.startAt) = Except.ok row.startAt ∧
         db.schema.reservationNotes (Store.bound r.notes) = Except.ok row.notes ∧
         (r.save db).1.reservations = db.reservations ++ [row] ∧
         (r.save db).2 = ({ r with id := some db.nextReservationId }, none) ∧
         ((r.save db).2.1.save (r.save db).1).1 =
           ((r.save db).1.updateReservation r.customerId r.numGuests r.startAt r.notes
             db.nextReservationId).1 ∧
         ((r.save db).2.1.save (r.save db).1).1.log =
           (r.save db).1.log ++
             [Query.updateReservation r.customerId r.numGuests r.startAt r.notes
               db.nextReservationId] ∧
         ((r.save db).2.1.save (r.save db).1).2 = ((r.save db).2.1, none) ∧
         ((r.save db).2.1.save (r.save db).1).1.reservations =
           db.reservations ++ [row] ∧
         ((r.save db).2.1.save (r.save db).1).1.reservations.length =
           db.reservations.length + 1) := by
  obtain ⟨rid, c, s, n, t⟩ := r
  cases hid
  simp only [Reservation.customerId, Reservation.numGuests, Reservation.startAt,
    Reservation.notes]
  cases hrow : db.schema.reservationRow db.nextReservationId c n s t with
  | error e =>
    simp [Reservation.save, Store.insertReservation, hrow, Store.record,
      Reservation.customerId, Reservation.numGuests, Reservation.startAt,
      Reservation.notes]
  | ok row =>
    obtain ⟨hrid, hc, hn, hs, ht⟩ := reservationRow_ok _ _ _ _ _ _ _ hrow
    by_cases hdup : db.reservations.any (fun r => r.id == db.nextReservationId) = true
    · simp [Reservation.save, Store.insertReservation, hrow, hdup, Store.record,
        Reservation.customerId, Reservation.numGuests, Reservation.startAt,
        Reservation.notes]
    · have hnew : db.reservations.any (fun r => r.id == db.nextReservationId) = false := by
        simpa using hdup
      simp only [Reservation.save, Store.insertReservation, hrow, hnew, Store.record,
        Reservation.customerId, Reservation.numGuests, Reservation.startAt,
        Reservation.notes, Store.updateReservation, List.head?_cons, Bool.false_eq_true,
        if_false]
      refine ⟨trivial, trivial, row, hrid, hc, hn, hs, ht, ?_⟩
      have hold : db.reservations.map
          (fun r => if r.id = db.nextReservationId then row else r) =
          db.reservations := by
        have hsame : ∀ r ∈ db.reservations,
            (if r.id = db.nextReservationId then row else r) = r := by
          intro r hr
          have h := List.any_eq_false.1 hnew r hr
          simp at h
          simp [h]
        calc db.reservations.map
              (fun r => if r.id = db.nextReservationId then row else r)
            = db.reservations.map (fun r => r) := List.map_congr_left hsame
          _ = db.reservations := List.map_id _
      simp [hrow, hold, hrid]

/-- Witness for C5 (amended): an unsaved reservation whose numGuests is the
string "2", on the empty store; the row the store keeps has the number 2. -/
theorem save_inserts_once_then_updates_witness :
    unsavedReservation.id = none ∧
    (unsavedReservation.save emptyStore).1.reservations =
      [{ id := 1, customerId := JSVal.num 3, numGuests := JSVal.num 2,
         startAt := JSVal.date 0, notes := JSVal.str "" }] ∧
    (unsavedReservation.save emptyStore).1.log =
      emptyStore.log ++
        [Query.insertReservation unsavedReservation.customerId
          unsavedReservation.numGuests unsavedReservation.startAt
          unsavedReservation.notes] :=
  ⟨rfl, rfl, (save_inserts_once_then_updates unsavedReservation emptyStore rfl).2.1⟩
/-! ## Customer.searchCustomers: the shape of the result -/

/-- C7. For every query string, given or omitted, and every store state,
searchCustomers raises no error; it sends one search SELECT, returns the
empty object exactly when the store returned no row, and otherwise an array
with one Customer per returned row, in the order of the rows. -/
theorem searchCustomers_never_raises (db : Store) (str : Option String) :
    (∀ e, (Customer.searchCustomers db str).2 ≠ Except.error e) ∧
    (Customer.searchCustomers db str).1.log =
      db.log ++ [Query.selectCustomersILike (Customer.searchString str)] ∧
    ∃ res, (Customer.searchCustomers db str).2 = Except.ok res ∧
      res.customers =
        (db.selectCustomersILike (Customer.searchString str)).2.map
          (fun c => Customer.new (Customer.ofRow c)) ∧
      (res = SearchResult.emptyObject ↔
        (db.selectCustomersILike (Customer.searchString str)).2 = []) ∧
      (res = SearchResult.array
            ((db.selectCustomersILike (Customer.searchString str)).2.map
              (fun c => Customer.new (Customer.ofRow c))) ↔
        (db.selectCustomersILike (Customer.searchString str)).2 ≠ []) := by
  have hlog : (db.selectCustomersILike (Customer.searchString str)).1.log =
      db.log ++ [Query.selectCustomersILike (Customer.searchString str)] := rfl
  unfold Customer.searchCustomers
  generalize db.selectCustomersILike (Customer.searchString str) = p at hlog ⊢
  obtain ⟨db1, rows⟩ := p
  cases rows <;> simp_all [SearchResult.customers]

/-! ## Customer.get -/

/-- C9 (evaluation at the failing input). On the empty store
`Customer.get(7)` fails with an error built by `new Error`, carrying status 404
and the message "No such customer: 7"; it is not the error `new NotFoundError`
builds for any message, and its class is not NotFoundError. -/
theorem customer_get_error_is_plain_Error :
    (emptyStore.selectCustomerById 7).2 = [] ∧
    (Customer.get emptyStore 7).2 =
      Except.error
        { cls := ErrorClass.Error, message := "No such customer: 7",
          status := some 404 } ∧
    (∀ msg, (Customer.get emptyStore 7).2 ≠ Except.error (NotFoundError msg)) ∧
    ∀ e, (Customer.get emptyStore 7).2 = Except.error e →
      e.cls ≠ ErrorClass.NotFoundError := by
  refine ⟨rfl, rfl, ?_, ?_⟩
  · intro msg h
    have h2 : (Customer.get emptyStore 7).2 =
        Except.error
          { cls := ErrorClass.Error, message := "No such customer: 7",
            status := some 404 } := rfl
    rw [h2] at h
    simp [NotFoundError] at h
  · intro e h
    have h2 : (Customer.get emptyStore 7).2 =
        Except.error
          { cls := ErrorClass.Error, message := "No such customer: 7",
            status := some 404 } := rfl
    rw [h2] at h
    cases h
    decide

/-- What `Customer.get(id)` does on every store state: it fails exactly when
the store returns no row for the id, with the error built by `new Error`, and
otherwise returns the Customer built from the first row. -/
theorem customer_get_fails_iff_no_row (db : Store) (id : Int) :
    ((∃ e, (Customer.get db id).2 = Except.error e) ↔
      (db.selectCustomerById id).2 = []) ∧
    (∀ e, (Customer.get db id).2 = Except.error e ↔
      ((db.selectCustomerById id).2 = [] ∧
        e = { cls := ErrorClass.Error, message := "No such customer: " ++ toString id,
              status := some 404 })) ∧
    (toString id).data <:+: ("No such customer: " ++ toString id).data ∧
    (Customer.get db id).2.toOption =
      (db.selectCustomerById id).2.head?.map
        (fun row => Customer.new (Customer.ofRow row)) ∧
    (Customer.get db id).1.log = db.log ++ [Query.selectCustomerById id] := by
  have hlog : (db.selectCustomerById id).1.log =
      db.log ++ [Query.selectCustomerById id] := rfl
  have hmsg : (toString id).data <:+: ("No such customer: " ++ toString id).data := by
    rw [String.data_append]
    exact (List.suffix_append _ _).isInfix
  unfold Customer.get
  generalize db.selectCustomerById id = p at hlog ⊢
  obtain ⟨db1, rows⟩ := p
  cases rows with
  | nil =>
    refine ⟨?_, ?_, hmsg, ?_, hlog⟩
    · simp
    · intro e
      simp [eq_comm]
    · simp [Except.toOption]
  | cons row rest =>
    refine ⟨?_, ?_, hmsg, ?_, hlog⟩
    · simp
    · intro e
      simp
    · simp [Except.toOption]

/-! ## Reservation.get -/

/-- The notes setter stores the assigned value, whatever it is, and raises
nothing. -/
theorem setNotes_stores_val (r : Reservation) (val : JSVal) :
    r.setNotes val = ({ r with _notes := val }, none) := by
  unfold Reservation.setNotes
  by_cases h : (!val.truthy) = true <;> simp [h]

/-- C10 (counterexample). The store returns a row for id 1, with zero guests;
`Reservation.get(1)` returns no Reservation: the constructor raises
BadRequestError, which is not a NotFoundError. -/
theorem reservation_get_row_with_zero_guests :
    (zeroGuestsStore.selectReservationById 1).2 =
      [{ id := 1, customerId := JSVal.num 4, numGuests := JSVal.num 0,
         startAt := JSVal.date 0, notes := JSVal.str "" }] ∧
    (Reservation.get zeroGuestsStore 1).2 =
      Except.error (BadRequestError "Cannot make reservation for less than 1 guest.") ∧
    (Reservation.get zeroGuestsStore 1).2.toOption = none :=
  ⟨rfl, rfl, rfl⟩

/-- C10 (amended). For every id and store state, `Reservation.get(id)` raises
NotFoundError exactly when the store returns no row, with the message
"No such reservation: " followed by the id; when the first returned row has a
numGuests that is not below 1 it returns the Reservation with the id of that row,
customerId, numGuests, startAt and notes; when the numGuests of the first row is
below 1 it raises the BadRequestError of the numGuests setter. -/
theorem reservation_get_by_first_row (db : Store) (id : Int) :
    ((∃ e, (Reservation.get db id).2 = Except.error e ∧
        e.cls = ErrorClass.NotFoundError) ↔
      (db.selectReservationById id).2 = []) ∧
    ((Reservation.get db id).2 =
        Except.error (NotFoundError ("No such reservation: " ++ toString id)) ↔
      (db.selectReservationById id).2 = []) ∧
    (toString id).data <:+: ("No such reservation: " ++ toString id).data ∧
    (Reservation.get db id).2 =
      (match (db.selectReservationById id).2.head? with
       | none => Except.error (NotFoundError ("No such reservation: " ++ toString id))
       | some row =>
         if row.numGuests.ltNum 1 then
           Except.error
             (BadRequestError "Cannot make reservation for less than 1 guest.")
         else
           Except.ok
             { id := some row.id, _customerId := row.customerId,
               _startAt := row.startAt, _numGuests := row.numGuests,
               _notes := row.notes }) := by
  have hmsg : (toString id).data <:+: ("No such reservation: " ++ toString id).data := by
    rw [String.data_append]
    exact (List.suffix_append _ _).isInfix
  unfold Reservation.get
  generalize db.selectReservationById id = p
  obtain ⟨db1, rows⟩ := p
  cases rows with
  | nil =>
    refine ⟨?_, ?_, hmsg, ?_⟩
    · simp [NotFoundError]
    · simp
    · simp
  | cons row rest =>
    have hnew : Reservation.new (Reservation.ofRow row) =
        (if row.numGuests.ltNum 1 then
           Except.error
             (BadRequestError "Cannot make reservation for less than 1 guest.")
         else
           Except.ok
             { id := some row.id, _customerId := row.customerId,
               _startAt := row.startAt, _numGuests := row.numGuests,
               _notes := row.notes }) := by
      by_cases hg : row.numGuests.ltNum 1 = true <;>
        simp [Reservation.new, Reservation.assign, Reservation.ofRow,
          Reservation.setCustomerId, Reservation.setNumGuests,
          Reservation.setStartAt, setNotes_stores_val, Reservation.blank,
          JSVal.truthy, JSVal.instanceofDate, Except.bind, hg]
    simp only [List.head?_cons, hnew]
    refine ⟨?_, ?_, hmsg, trivial⟩
    · by_cases hg : row.numGuests.ltNum 1 = true <;>
        simp [hg, BadRequestError, NotFoundError]
    · by_cases hg : row.numGuests.ltNum 1 = true <;>
        simp [hg, BadRequestError, NotFoundError]

/-! ## Customer.searchCustomers: a query with a wildcard character -/

/-- C8 (evaluation at the failing input). With Al Bo the only stored
customer, the query "_" binds the pattern "%_%" and the search returns Al Bo,
although "_" occurs neither in "Al", nor in "Bo", nor in "Al Bo", with or
without the case mapping of the store. -/
theorem search_underscore_returns_name_without_it :
    Customer.searchString (some "_") = "%_%" ∧
    (oneCustomerStore.selectCustomersILike "%_%").1.log =
      [Query.selectCustomersILike "%_%"] ∧
    (Customer.searchCustomers oneCustomerStore (some "_")).2 =
      Except.ok (SearchResult.array
        [{ id := some 1, firstName := JSText.str "Al", lastName := JSText.str "Bo",
           fullName := "Al Bo", phone := JSText.null, notes := JSText.null }]) ∧
    ¬ "_".data <:+: "Al".data ∧ ¬ "_".data <:+: "Bo".data ∧
    ¬ "_".data <:+: "Al Bo".data ∧
    ¬ "_".data.map oneCustomerStore.schema.lower <:+:
        "Al Bo".data.map oneCustomerStore.schema.lower :=
  ⟨rfl, rfl, rfl, by decide, by decide, by decide, by decide⟩
/-! ## Customer.save followed by Customer.get -/

/-- A row the schema builds carries the given id and, column by column, the
value the schema keeps for the bound value. -/
theorem customerRow_ok (sc : Schema) (id : Int) (a b c d : JSText)
    (row : CustomerRow) (h : sc.customerRow id a b c d = Except.ok row) :
    row.id = id ∧ sc.firstName a.bound = Except.ok row.firstName ∧
      sc.lastName b.bound = Except.ok row.lastName ∧
      sc.phone c.bound = Except.ok row.phone ∧
      sc.customerNotes d.bound = Except.ok row.notes := by
  unfold Schema.customerRow at h
  cases h1 : sc.firstName a.bound <;>
    cases h2 : sc.lastName b.bound <;>
    cases h3 : sc.phone c.bound <;>
    cases h4 : sc.customerNotes d.bound <;>
    simp [h1, h2, h3, h4, Except.bind] at h
  subst h
  simp

/-- C6 (counterexample). Two customers saved to the empty store, each getting
id 1. The one built as Ann Lee and renamed Bea still reads fullName
"Ann Lee", while `Customer.get(1)` returns fullName "Bea Lee". The one built
as Di Roe with phone and notes omitted reads them as undefined, while
`Customer.get(1)` returns them as null. Neither comes back identical. -/
theorem saved_customer_comes_back_different :
    ((renamedCustomer.save emptyStore).2.1.id = some 1 ∧
      (renamedCustomer.save emptyStore).2.1.fullName = "Ann Lee" ∧
      (∃ d, (Customer.get (renamedCustomer.save emptyStore).1 1).2 = Except.ok d ∧
        d.fullName = "Bea Lee") ∧
      (Customer.get (renamedCustomer.save emptyStore).1 1).2 ≠
        Except.ok (renamedCustomer.save emptyStore).2.1) ∧
    ((noPhoneCustomer.save emptyStore).2.1.id = some 1 ∧
      (noPhoneCustomer.save emptyStore).2.1.phone = JSText.undefined ∧
      (∃ d, (Customer.get (noPhoneCustomer.save emptyStore).1 1).2 = Except.ok d ∧
        d.phone = JSText.null ∧ d.notes = JSText.null) ∧
      (Customer.get (noPhoneCustomer.save emptyStore).1 1).2 ≠
        Except.ok (noPhoneCustomer.save emptyStore).2.1) := by
  refine ⟨⟨rfl, rfl, ⟨_, rfl, rfl⟩, ?_⟩, ⟨rfl, rfl, ⟨_, rfl, rfl, rfl⟩, ?_⟩⟩
  · intro h
    have h2 : (Customer.get (renamedCustomer.save emptyStore).1 1).2 =
        Except.ok
          { id := some 1, firstName := JSText.str "Bea", lastName := JSText.str "Lee",
            fullName := "Bea Lee", phone := JSText.str "555", notes := JSText.null } :=
      rfl
    rw [h2] at h
    have h3 := Except.ok.inj h
    revert h3
    decide
  · intro h
    have h2 : (Customer.get (noPhoneCustomer.save emptyStore).1 1).2 =
        Except.ok
          { id := some 1, firstName := JSText.str "Di", lastName := JSText.str "Roe",
            fullName := "Di Roe", phone := JSText.null, notes := JSText.null } :=
      rfl
    rw [h2] at h
    have h3 := Except.ok.inj h
    revert h3
    decide

/-- C6 (amended). For every customer C whose id is undefined and every store
state, when C.save() raises nothing it has set C.id to the next id of the
sequence and the store has kept one value per column for the four bound
values; `Customer.get(C.id)` then returns the customer built from that row:
the same id, firstName, lastName, phone and notes as the store kept them, and
fullName the concatenation of the returned names. The returned customer is
identical to C in all six fields exactly when the store returns each of the
four values as C holds it and the fullName of C is its current
firstName + " " + lastName. -/
theorem customer_get_after_save (c : Customer) (db : Store) (hid : c.id = none)
    (hok : (c.save db).2.2 = none) :
    ∃ row : CustomerRow,
      row.id = db.nextCustomerId ∧
      db.schema.firstName c.firstName.bound = Except.ok row.firstName ∧
      db.schema.lastName c.lastName.bound = Except.ok row.lastName ∧
      db.schema.phone c.phone.bound = Except.ok row.phone ∧
      db.schema.customerNotes c.notes.bound = Except.ok row.notes ∧
      (c.save db).2.1 = { c with id := some db.nextCustomerId } ∧
      (Customer.get (c.save db).1 db.nextCustomerId).2 =
        Except.ok (Customer.new (Customer.ofRow row)) ∧
      ((Customer.get (c.save db).1 db.nextCustomerId).2 = Except.ok (c.save db).2.1 ↔
        (JSText.ofColumn row.firstName = c.firstName ∧
          JSText.ofColumn row.lastName = c.lastName ∧
          JSText.ofColumn row.phone = c.phone ∧
          JSText.ofColumn row.notes = c.notes ∧
          c.fullName = c.getFullName)) := by
  obtain ⟨cid, fn, ln, full, ph, nt⟩ := c
  cases hid
  cases hrow : db.schema.customerRow db.nextCustomerId fn ln ph nt with
  | error e =>
    simp [Customer.save, Store.insertCustomer, hrow] at hok
  | ok row =>
    obtain ⟨hrid, hfn, hln, hph, hnt⟩ := customerRow_ok _ _ _ _ _ _ _ hrow
    by_cases hdup : db.customers.any (fun r => r.id == db.nextCustomerId) = true
    · simp [Customer.save, Store.insertCustomer, hrow, hdup] at hok
    · have hnew : db.customers.any (fun r => r.id == db.nextCustomerId) = false := by
        simpa using hdup
      have hnone : (db.customers.filter fun r => r.id == db.nextCustomerId) = [] := by
        apply List.filter_eq_nil_iff.2
        intro r hr
        have h := List.any_eq_false.1 hnew r hr
        simpa using h
      have hsave : Customer.save
          { id := none, firstName := fn, lastName := ln, fullName := full, phone := ph,
            notes := nt } db =
          ({ db with
              customers := db.customers ++ [row]
              nextCustomerId := db.nextCustomerId + 1
              log := db.log ++ [Query.insertCustomer fn ln ph nt] },
            { id := some db.nextCustomerId, firstName := fn, lastName := ln,
              fullName := full, phone := ph, notes := nt }, none) := by
        simp [Customer.save, Store.insertCustomer, hrow, hnew, Store.record]
      have hget : (Customer.get
          { db with
              customers := db.customers ++ [row]
              nextCustomerId := db.nextCustomerId + 1
              log := db.log ++ [Query.insertCustomer fn ln ph nt] }
          db.nextCustomerId).2 = Except.ok (Customer.new (Customer.ofRow row)) := by
        simp [Customer.get, Store.selectCustomerById, Store.record, List.filter_append,
          hnone, hrid]
      refine ⟨row, hrid, hfn, hln, hph, hnt, ?_, ?_, ?_⟩
      · rw [hsave]
      · rw [hsave]
        exact hget
      · rw [hsave]
        simp only [hget]
        simp only [Customer.new, Customer.ofRow, Customer.getFullName, Except.ok.injEq,
          Customer.mk.injEq, hrid, true_and]
        constructor
        · rintro ⟨h1, h2, h3, h4, h5⟩
          refine ⟨h1, h2, h4, h5, ?_⟩
          rw [← h3, h1, h2]
        · rintro ⟨h1, h2, h4, h5, h3⟩
          refine ⟨h1, h2, ?_, h4, h5⟩
          rw [h3, h1, h2]

/-- Witness for C6 (amended): Cy Ode, phone null, notes "vip", never renamed,
saved to the store that holds Al Bo under id 1 with the sequence at 2. -/
theorem customer_get_after_save_witness :
    plainCustomer.id = none ∧ (plainCustomer.save oneCustomerStore).2.2 = none ∧
    (Customer.get (plainCustomer.save oneCustomerStore).1
        oneCustomerStore.nextCustomerId).2 =
      Except.ok (plainCustomer.save oneCustomerStore).2.1 := by
  refine ⟨rfl, rfl, ?_⟩
  obtain ⟨row, _, hfn, hln, hph, hnt, _, _, hiff⟩ :=
    customer_get_after_save plainCustomer oneCustomerStore rfl rfl
  have h1 : some "Cy" = row.firstName := Except.ok.inj hfn
  have h2 : some "Ode" = row.lastName := Except.ok.inj hln
  have h3 : none = row.phone := Except.ok.inj hph
  have h4 : some "vip" = row.notes := Except.ok.inj hnt
  apply hiff.2
  rw [← h1, ← h2, ← h3, ← h4]
  exact ⟨rfl, rfl, rfl, rfl, rfl⟩

end Lunchly
